import Mathlib

/-!
Shallow embedding of the SwimRank updater backend.

The repository holds two near-duplicate FastAPI applications:
* `src/main.py` — randomized row simulation plus best-effort MongoDB
  persistence and read endpoints (`/runs`, `/runs/{run_id}/rows`);
* `src/backend/main.py` — a deterministic variant deriving the row count
  from the tab-name length, with no persistence.

Machine integers are modelled as `Nat` (all quantities involved are small,
non-negative counts, row numbers and millisecond durations; Python ints do
not overflow).  Randomness (`random.randint`, `random.sample`) is modelled
by threading an abstract stream `g : Nat → Nat` of draws: `randint a b`
applied to a draw returns `a + draw % (b - a + 1)`, which ranges exactly
over `[a, b]`.  The wall clock (`datetime.now()`) is a `dateStr` parameter.
HTTP handler outcomes are `HandlerResult`: either an `HTTPException`
(status code plus detail) or a value.
-/

/-- Outcome of a FastAPI handler: an HTTPException or a returned value. -/
inductive HandlerResult (α : Type) where
  | error (status : Nat) (detail : String)
  | ok (val : α)
deriving DecidableEq

/-- Request body of POST /live-update (`LiveUpdateRequest` in both
`src/main.py` and `src/backend/main.py`).  The URL fields are validated as
syntactic URLs by pydantic and never inspected further; they are kept as
plain strings. -/
structure LiveUpdateRequest where
  athlete_url : String
  sheet_url : String
  sheet_tab : String
deriving DecidableEq

/-- One fabricated result row (`UpdatedRow` in both modules). -/
structure UpdatedRow where
  row_number : Nat
  event : String
  date : String
  old_time : Option String
  new_time : String
  delta : Option String
deriving DecidableEq

/-- Response body of POST /live-update (`LiveUpdateResponse` in both
modules). -/
structure LiveUpdateResponse where
  ok : Bool
  message : String
  updated_count : Nat
  rows : List UpdatedRow
deriving DecidableEq

/-- Python `not s.strip()`: true iff the string is empty or consists only
of whitespace characters. -/
def pyStripEmpty (s : String) : Bool :=
  s.data.all Char.isWhitespace

namespace Backend

/-- The fixed three-row list `base_rows` of `src/backend/main.py`
(lines 58-62). -/
def base_rows : List UpdatedRow :=
  [ { row_number := 7, event := "50m Freestyle", date := "2024-09-14",
      old_time := some "00:27.31", new_time := "00:27.12", delta := some "-0.19" },
    { row_number := 12, event := "100m Butterfly", date := "2024-10-02",
      old_time := some "01:05.88", new_time := "01:05.40", delta := some "-0.48" },
    { row_number := 19, event := "200m Individual Medley", date := "2024-10-21",
      old_time := some "02:38.10", new_time := "02:37.55", delta := some "-0.55" } ]

/-- The POST /live-update handler of `src/backend/main.py` (lines 50-73):
reject a whitespace-only tab with a 400, otherwise take the first
`min(3, max(1, len(sheet_tab) % 4))` rows of `base_rows`. -/
def live_update (payload : LiveUpdateRequest) : HandlerResult LiveUpdateResponse :=
  if pyStripEmpty payload.sheet_tab then
    .error 400 "Le nom d\x27onglet est requis"
  else
    let n := min 3 (max 1 (payload.sheet_tab.length % 4))
    let rows := base_rows.take n
    .ok { ok := true
        , message := toString n ++ " ligne(s) mise(s) à jour dans l\x27onglet \x27"
            ++ payload.sheet_tab ++ "\x27."
        , updated_count := rows.length
        , rows := rows }

end Backend

/-- `random.randint(a, b)` fed with one abstract draw `r`: an arbitrary
value in the inclusive range `[a, b]`. -/
def randint (a b : Nat) (r : Nat) : Nat :=
  a + r % (b - a + 1)

/-- The fixed 5-event catalog `events` of `src/main.py` (lines 63-69). -/
def events : List String :=
  [ "50m Freestyle",
    "100m Freestyle",
    "200m Freestyle",
    "100m Backstroke",
    "200m Individual Medley" ]

/-- `random.sample(l, k)`: selection of `k` elements without replacement,
modelled by repeatedly drawing an index into the remaining pool (draws
`g i, g (i+1), …`) and removing the chosen element. -/
def sample (l : List α) (k : Nat) (g : Nat → Nat) (i : Nat) : List α :=
  match k, l with
  | 0, _ => []
  | _ + 1, [] => []
  | k + 1, x :: xs =>
      let j := g i % (x :: xs).length
      (x :: xs).get ⟨j, Nat.mod_lt _ (Nat.succ_pos _)⟩ ::
        sample ((x :: xs).eraseIdx j) k g (i + 1)

/-- Python `str.zfill(w)` for a string of digits: left-pad with `0` to
width `w`. -/
def zfill (w : Nat) (s : String) : String :=
  ⟨List.replicate (w - s.length) '0' ++ s.data⟩

/-- The local `fmt` of `src/main.py` (lines 80-83): render a millisecond
count as `M:SS.mmm` via divmod by 1000 and 60. -/
def fmt (ms : Nat) : String :=
  let s := ms / 1000
  let ms_part := ms % 1000
  let m := s / 60
  let s2 := s % 60
  toString m ++ ":" ++ zfill 2 (toString s2) ++ "." ++ zfill 3 (toString ms_part)

/-- Python `f"{gain_ms/1000:.2f}"` on an exact multiple of 0.001: round the
millisecond count to hundredths (half-to-even on the exact decimal value;
the binary-float noise of CPython can shift an exact tie by one hundredth,
which no claim below depends on). -/
def roundHundredths (gain_ms : Nat) : Nat :=
  let q := gain_ms / 10
  let r := gain_ms % 10
  if r < 5 then q
  else if 5 < r then q + 1
  else if q % 2 = 0 then q else q + 1

/-- The `delta` string of `src/main.py` (line 90): `f"-{gain_ms/1000:.2f}s"`. -/
def deltaStr (gain_ms : Nat) : String :=
  let h := roundHundredths gain_ms
  "-" ++ toString (h / 100) ++ "." ++ zfill 2 (toString (h % 100)) ++ "s"

/-- The row-building loop of `src/main.py` (lines 74-91): one row per
chosen event, consuming two random draws per row (`old_ms`, `gain_ms`). -/
def mkRows (base_row : Nat) (g : Nat → Nat) (i : Nat) (idx : Nat)
    (chosen : List String) (dateStr : String) : List UpdatedRow :=
  match chosen with
  | [] => []
  | ev :: rest =>
      let old_ms := randint 30000 80000 (g i)
      let gain_ms := randint 200 1500 (g (i + 1))
      let new_ms := old_ms - gain_ms
      { row_number := base_row + idx
      , event := ev
      , date := dateStr
      , old_time := some (fmt old_ms)
      , new_time := fmt new_ms
      , delta := some (deltaStr gain_ms) } ::
        mkRows base_row g (i + 2) (idx + 1) rest dateStr

/-- The POST /live-update handler body of `src/main.py` (lines 56-98), up
to and including building the response (persistence is modelled
separately).  `g` is the stream of random draws, `dateStr` the value of
`datetime.now().strftime("%Y-%m-%d")`. -/
def live_update (payload : LiveUpdateRequest) (g : Nat → Nat)
    (dateStr : String) : LiveUpdateResponse :=
  let count := randint 1 3 (g 0)
  let chosen := sample events count g 1
  let base_row := randint 4 18 (g (count + 1))
  let rows := mkRows base_row g (count + 2) 0 chosen dateStr
  { ok := true
  , message := toString rows.length ++ " ligne(s) mises à jour dans \x27"
      ++ payload.sheet_tab ++ "\x27."
  , updated_count := rows.length
  , rows := rows }

/-- The pydantic validation layer of `src/main.py` (line 27):
`sheet_tab : str = Field(..., min_length=1)`.  A request whose tab is
shorter than one character is rejected by FastAPI with a 422 validation
error before the handler runs; otherwise the handler is invoked. -/
def live_update_validated (payload : LiveUpdateRequest) (g : Nat → Nat)
    (dateStr : String) : HandlerResult LiveUpdateResponse :=
  if payload.sheet_tab.length < 1 then
    .error 422 "String should have at least 1 character"
  else
    .ok (live_update payload g dateStr)

/-- Modelled from the spec: a persisted Run document (`schemas.Run`, built
at `src/main.py` lines 104-111; the `schemas` module itself is not in the
sources).  Per §3 of the spec it carries the request fields, the response
summary and a creation timestamp. -/
structure RunDoc where
  athlete_url : String
  sheet_url : String
  sheet_tab : String
  ok : Bool
  message : String
  updated_count : Nat
deriving DecidableEq

/-- Modelled from the spec: a persisted Result document (`schemas.Result`,
built at `src/main.py` lines 114-122): a foreign reference to the parent
Run plus the row fields. -/
structure ResultDoc where
  run_id : Nat
  row_number : Nat
  event : String
  date : String
  old_time : Option String
  new_time : String
  delta : Option String
deriving DecidableEq

/-- The Run document built from the request and the already-built response
(`src/main.py` lines 104-111). -/
def mkRunDoc (payload : LiveUpdateRequest) (response : LiveUpdateResponse) : RunDoc :=
  { athlete_url := payload.athlete_url
  , sheet_url := payload.sheet_url
  , sheet_tab := payload.sheet_tab
  , ok := response.ok
  , message := response.message
  , updated_count := response.updated_count }

/-- The Result document built from one row (`src/main.py` lines 114-122). -/
def mkResultDoc (run_id : Nat) (r : UpdatedRow) : ResultDoc :=
  { run_id := run_id
  , row_number := r.row_number
  , event := r.event
  , date := r.date
  , old_time := r.old_time
  , new_time := r.new_time
  , delta := r.delta }

/-- State of the document store: the `run` and `result` collections.  The
store-assigned identifier of a document is its index-derived `Nat` id. -/
structure DBState where
  runs : List RunDoc
  results : List ResultDoc
deriving DecidableEq

/-- One `create_document` call on the external adapter may raise.  The
whole try-block of `src/main.py` lines 101-126 — insert the Run, then one
Result per row, aborting at the first raised exception with the partial
state kept (MongoDB has no transaction here) — is modelled with an oracle
`fails : Nat → Bool` telling whether the i-th insert call raises. -/
def persistAll (d : DBState) (fails : Nat → Bool)
    (payload : LiveUpdateRequest) (response : LiveUpdateResponse) :
    Except String DBState :=
  if fails 0 then .error "create_document failed" else
  let run_id := d.runs.length
  let d1 : DBState := { d with runs := d.runs ++ [mkRunDoc payload response] }
  let rec loop (d : DBState) (callIdx : Nat) : List UpdatedRow → Except String DBState
    | [] => .ok d
    | r :: rs =>
        if fails callIdx then .error "create_document failed"
        else loop { d with results := d.results ++ [mkResultDoc run_id r] }
          (callIdx + 1) rs
  loop d1 1 response.rows

/-- The full POST /live-update handler of `src/main.py` (lines 56-128):
build the response, then attempt persistence when a store is configured,
catching and discarding any exception (lines 124-126), and return the
response.  The returned pair is (HTTP response, store state afterwards). -/
def live_update_persisted (payload : LiveUpdateRequest) (g : Nat → Nat)
    (dateStr : String) (db : Option DBState) (fails : Nat → Bool) :
    LiveUpdateResponse × Option DBState :=
  let response := live_update payload g dateStr
  let db2 :=
    match db with
    | none => db
    | some d =>
        match persistAll d fails payload response with
        | .ok d2 => some d2
        | .error _ => some d
  (response, db2)

/-- A fetched `run` document as returned by `get_documents("run", …)`:
the store-assigned `_id`, the optional `created_at` timestamp the sort key
reads (`d.get("created_at", datetime.min)`), and the remaining fields kept
opaque.  Timestamps are `Nat`, with `datetime.min` as `0`. -/
structure StoredRun where
  oid : Option Nat
  created_at : Option Nat
  rest : RunDoc
deriving DecidableEq

/-- A `run` document after the identifier rewriting of `src/main.py`
lines 141-143: `_id` removed, `id` added as its string form when present. -/
structure OutRun where
  id : Option String
  created_at : Option Nat
  rest : RunDoc
deriving DecidableEq

/-- The sort key of `src/main.py` line 139:
`d.get("created_at", datetime.min)` — a missing timestamp sorts as the
earliest possible one. -/
def runSortKey (d : StoredRun) : Nat :=
  d.created_at.getD 0

/-- The identifier rewriting of `src/main.py` lines 141-143:
`if "_id" in r: r["id"] = str(r.pop("_id"))`. -/
def rewriteId (d : StoredRun) : OutRun :=
  { id := d.oid.map toString
  , created_at := d.created_at
  , rest := d.rest }

/-- Response of GET /runs. -/
structure RunsResponse where
  ok : Bool
  message : Option String
  runs : List OutRun
deriving DecidableEq

/-- The GET /runs handler of `src/main.py` (lines 131-146).  `db` is the
optional store whose `run` collection is fetched;
`get_documents("run", {}, limit=limit)` returns the first `limit`
documents, and may raise, which is modelled by `fetchErr`.  `list.sort`
(stable, Timsort) with `reverse=True` is modelled by a stable merge sort
on the flipped order. -/
def list_runs (db : Option (List StoredRun)) (limit : Nat)
    (fetchErr : Option String) : RunsResponse :=
  match db with
  | none => { ok := false, message := some "Database not configured", runs := [] }
  | some coll =>
      match fetchErr with
      | some e => { ok := false, message := some e, runs := [] }
      | none =>
          let fetched := coll.take limit
          let sorted := fetched.mergeSort (fun a b => runSortKey b ≤ runSortKey a)
          { ok := true, message := none, runs := sorted.map rewriteId }

/-- A fetched `result` document: store-assigned `_id`, the `run_id`
foreign reference the filter reads, remaining fields opaque.  (The filter
compares `run_id` as the string the route received.) -/
structure StoredResult where
  oid : Option Nat
  run_id : String
  rest : ResultDoc
deriving DecidableEq

/-- A `result` document after identifier rewriting. -/
structure OutResult where
  id : Option String
  run_id : String
  rest : ResultDoc
deriving DecidableEq

/-- The identifier rewriting of `src/main.py` lines 157-159. -/
def rewriteResId (d : StoredResult) : OutResult :=
  { id := d.oid.map toString
  , run_id := d.run_id
  , rest := d.rest }

/-- Response of GET /runs/{run_id}/rows. -/
structure RowsResponse where
  ok : Bool
  message : Option String
  rows : List OutResult
deriving DecidableEq

/-- The GET /runs/{run_id}/rows handler of `src/main.py` (lines 149-162):
`get_documents("result", {"run_id": run_id})` filters the `result`
collection on the `run_id` field; a raised fetch exception (`fetchErr`) is
caught into an `ok: false` response. -/
def get_run_rows (db : Option (List StoredResult)) (run_id : String)
    (fetchErr : Option String) : RowsResponse :=
  match db with
  | none => { ok := false, message := some "Database not configured", rows := [] }
  | some coll =>
      match fetchErr with
      | some e => { ok := false, message := some e, rows := [] }
      | none =>
          let fetched := coll.filter (fun r => r.run_id = run_id)
          { ok := true, message := none, rows := fetched.map rewriteResId }

/-- Split a character list at the first occurrence of `c`:
`some (before, after)` when `c` occurs, `none` otherwise. -/
def splitFirst (c : Char) : List Char → Option (List Char × List Char)
  | [] => none
  | x :: xs =>
      if x = c then some ([], xs)
      else
        match splitFirst c xs with
        | some (a, b) => some (x :: a, b)
        | none => none

/-- The numeric value of a non-empty list of decimal digit characters;
`none` when empty or containing a non-digit. -/
def digitsVal (l : List Char) : Option Nat :=
  if l ≠ [] ∧ l.all Char.isDigit then
    some (l.foldl (fun acc c => acc * 10 + (c.toNat - 48)) 0)
  else none

/-- Parse a duration string of shape `minutes ":" seconds "." fraction`
(digits only in each part, at most six fractional digits) into
microseconds.  The fractional part is scaled by its digit count, so both
the generator's `M:SS.mmm` output and fixed-width variants such as
`MM:SS.hh` parse to comparable values. -/
def parseDuration (str : String) : Option Nat :=
  match splitFirst ':' str.data with
  | none => none
  | some (mPart, rest) =>
      match splitFirst '.' rest with
      | none => none
      | some (sPart, fPart) =>
          match digitsVal mPart, digitsVal sPart, digitsVal fPart with
          | some m, some s, some f =>
              if fPart.length ≤ 6 then
                some (m * 60000000 + s * 1000000 + f * (1000000 / 10 ^ fPart.length))
              else none
          | _, _, _ => none

/-- A row's times improve: `old_time` is present, both times parse as
durations, and the new one is strictly smaller. -/
def timesImprove (row : UpdatedRow) : Bool :=
  match row.old_time with
  | none => false
  | some o =>
      match parseDuration row.new_time, parseDuration o with
      | some a, some b => decide (a < b)
      | _, _ => false

/-- Matcher for the anchored regular expression `-\d+\.\d{2}s`. -/
def matchesDeltaPat (s : String) : Bool :=
  match s.data with
  | '-' :: rest =>
      let ds := rest.takeWhile Char.isDigit
      let rest2 := rest.dropWhile Char.isDigit
      decide (ds ≠ []) &&
        match rest2 with
        | '.' :: d1 :: d2 :: 's' :: [] => d1.isDigit && d2.isDigit
        | _ => false
  | _ => false

/-- Matcher for the anchored regular expression `-\d+\.\d{2}` (no trailing
`s`), the shape of the deltas of `src/backend/main.py`. -/
def matchesDeltaPatNoUnit (s : String) : Bool :=
  match s.data with
  | '-' :: rest =>
      let ds := rest.takeWhile Char.isDigit
      let rest2 := rest.dropWhile Char.isDigit
      decide (ds ≠ []) &&
        match rest2 with
        | '.' :: d1 :: d2 :: [] => d1.isDigit && d2.isDigit
        | _ => false
  | _ => false

/-- Substring containment of `needle` in `hay` (Python `needle in hay`). -/
def containsSub (needle : String) : List Char → Bool
  | [] => needle.data.isEmpty
  | c :: t => needle.data.isPrefixOf (c :: t) || containsSub needle t

/-- `hay` contains `needle` as a contiguous substring. -/
def strContains (hay needle : String) : Bool :=
  containsSub needle hay.data

/-- A fixed stream of random draws (every draw 0), used to instantiate the
randomized handler on concrete inputs. -/
def gZero : Nat → Nat := fun _ => 0

/-- The end-to-end scenario request of the spec (§8, property 7). -/
def reqMeet : LiveUpdateRequest :=
  { athlete_url := "https://example.com/a"
  , sheet_url := "https://example.com/s"
  , sheet_tab := "Meet2024" }

/-- A request whose tab name is a single space: non-empty but
whitespace-only. -/
def reqSpace : LiveUpdateRequest :=
  { athlete_url := "https://example.com/a"
  , sheet_url := "https://example.com/s"
  , sheet_tab := " " }

/-- A request whose tab name is three spaces. -/
def reqSpace3 : LiveUpdateRequest :=
  { athlete_url := "https://example.com/a"
  , sheet_url := "https://example.com/s"
  , sheet_tab := "   " }

/-- A request with the two-character tab name "ab" (so the deterministic
variant returns two rows). -/
def reqAb : LiveUpdateRequest :=
  { athlete_url := "https://example.com/a"
  , sheet_url := "https://example.com/s"
  , sheet_tab := "ab" }

/-- The delta string of the first row of a successful handler outcome. -/
def firstDelta : HandlerResult LiveUpdateResponse → Option String
  | .ok r => r.rows.head?.bind (fun row => row.delta)
  | .error _ _ => none

/-- The event names of the rows of a successful handler outcome. -/
def eventsOf : HandlerResult LiveUpdateResponse → List String
  | .ok r => r.rows.map (fun row => row.event)
  | .error _ _ => []

/-- Sort key on rewritten run documents: `created_at`, missing as
earliest. -/
def outKey (r : OutRun) : Nat :=
  r.created_at.getD 0

/-- A request whose tab name is the empty string. -/
def reqEmpty : LiveUpdateRequest :=
  { athlete_url := "https://example.com/a"
  , sheet_url := "https://example.com/s"
  , sheet_tab := "" }

/-- A concrete stored `result` document with `run_id` "abc". -/
def sResult1 : StoredResult :=
  { oid := some 1
  , run_id := "abc"
  , rest :=
      { run_id := 0, row_number := 7, event := "50m Freestyle"
        , date := "2024-09-14", old_time := some "00:27.31"
        , new_time := "00:27.12", delta := some "-0.19" } }

/-- A concrete Run document used to populate a stored `run` collection. -/
def runDoc1 : RunDoc :=
  { athlete_url := "https://example.com/a"
  , sheet_url := "https://example.com/s"
  , sheet_tab := "Meet2024"
  , ok := true
  , message := "1 ligne(s)"
  , updated_count := 1 }

/-- A stored `run` document lacking a `created_at` timestamp. -/
def sRunNoTs : StoredRun :=
  { oid := some 2, created_at := none, rest := runDoc1 }

/-- A stored `run` document with `created_at` timestamp 5. -/
def sRunTs5 : StoredRun :=
  { oid := some 3, created_at := some 5, rest := runDoc1 }

theorem randint_lower (a b r : Nat) : a ≤ randint a b r :=
  Nat.le_add_right a _

theorem randint_upper (a b r : Nat) (h : a ≤ b) : randint a b r ≤ b := by
  have hpos : 0 < b - a + 1 := Nat.succ_pos _
  have := Nat.mod_lt r hpos
  unfold randint
  omega

theorem getElem_not_mem_eraseIdx {α : Type} [DecidableEq α] {l : List α}
    (hl : l.Nodup) {j : Nat} (hj : j < l.length) : l[j] ∉ l.eraseIdx j := by
  intro hmem
  have h1 : l[j] ∈ l.erase l[j] := (List.erase_getElem hj).mem_iff.mpr hmem
  have h2 := (List.Nodup.mem_erase_iff hl).mp h1
  exact h2.1 rfl

theorem sample_subset {α : Type} (k : Nat) (l : List α) (g : Nat → Nat)
    (i : Nat) : ∀ x ∈ sample l k g i, x ∈ l := by
  induction k generalizing l i with
  | zero => intro x hx; simp [sample] at hx
  | succ k ih =>
      intro x hx
      match l with
      | [] => simp [sample] at hx
      | y :: ys =>
          simp only [sample] at hx
          rcases List.mem_cons.mp hx with h | h
          · subst h; exact List.get_mem _ _ _
          · exact List.eraseIdx_subset _ _ (ih _ _ x h)

theorem sample_length {α : Type} (k : Nat) (l : List α) (g : Nat → Nat)
    (i : Nat) (h : k ≤ l.length) : (sample l k g i).length = k := by
  induction k generalizing l i with
  | zero => simp [sample]
  | succ k ih =>
      match l with
      | [] => simp at h
      | y :: ys =>
          simp only [sample]
          have hj : g i % (y :: ys).length < (y :: ys).length :=
            Nat.mod_lt _ (Nat.succ_pos _)
          have hk : k ≤ ((y :: ys).eraseIdx (g i % (y :: ys).length)).length := by
            rw [List.length_eraseIdx, if_pos hj]
            omega
          rw [List.length_cons, ih _ _ hk]

theorem sample_nodup {α : Type} [DecidableEq α] (k : Nat) (l : List α)
    (g : Nat → Nat) (i : Nat) (hl : l.Nodup) : (sample l k g i).Nodup := by
  induction k generalizing l i with
  | zero => simp [sample]
  | succ k ih =>
      match l with
      | [] => simp [sample]
      | y :: ys =>
          simp only [sample]
          refine List.Nodup.cons ?_ (ih _ _ (List.Nodup.eraseIdx _ hl))
          intro hmem
          have hj : g i % (y :: ys).length < (y :: ys).length :=
            Nat.mod_lt _ (Nat.succ_pos _)
          have hin := sample_subset k _ g (i + 1) _ hmem
          exact getElem_not_mem_eraseIdx hl hj hin

theorem mkRows_map_event (b : Nat) (g : Nat → Nat) (i idx : Nat)
    (chosen : List String) (d : String) :
    (mkRows b g i idx chosen d).map (fun r => r.event) = chosen := by
  induction chosen generalizing i idx with
  | nil => simp [mkRows]
  | cons e rest ih => simp [mkRows, ih]

theorem mkRows_length (b : Nat) (g : Nat → Nat) (i idx : Nat)
    (chosen : List String) (d : String) :
    (mkRows b g i idx chosen d).length = chosen.length := by
  have := mkRows_map_event b g i idx chosen d
  calc (mkRows b g i idx chosen d).length
      = ((mkRows b g i idx chosen d).map (fun r => r.event)).length :=
        (List.length_map _ _).symm
    _ = chosen.length := by rw [this]

theorem mkRows_mem (b : Nat) (g : Nat → Nat) (i idx : Nat)
    (chosen : List String) (d : String) (row : UpdatedRow)
    (h : row ∈ mkRows b g i idx chosen d) :
    ∃ o gn, 30000 ≤ o ∧ o ≤ 80000 ∧ 200 ≤ gn ∧ gn ≤ 1500 ∧
      row.old_time = some (fmt o) ∧ row.new_time = fmt (o - gn) ∧
      row.delta = some (deltaStr gn) ∧ row.event ∈ chosen ∧
      row.date = d := by
  induction chosen generalizing i idx with
  | nil => simp [mkRows] at h
  | cons e rest ih =>
      simp only [mkRows] at h
      rcases List.mem_cons.mp h with h | h
      · subst h
        refine ⟨randint 30000 80000 (g i), randint 200 1500 (g (i + 1)),
          randint_lower _ _ _, randint_upper _ _ _ (by omega),
          randint_lower _ _ _, randint_upper _ _ _ (by omega),
          rfl, rfl, rfl, List.mem_cons_self _ _, rfl⟩
      · rcases ih (i + 2) (idx + 1) h with
          ⟨o, gn, h1, h2, h3, h4, h5, h6, h7, h8, h9⟩
        exact ⟨o, gn, h1, h2, h3, h4, h5, h6, h7, List.mem_cons_of_mem _ h8, h9⟩

theorem splitFirst_append (c : Char) (xs ys : List Char) (h : c ∉ xs) :
    splitFirst c (xs ++ c :: ys) = some (xs, ys) := by
  induction xs with
  | nil => simp [splitFirst]
  | cons x xt ih =>
      have hx : x ≠ c := fun he => h (he ▸ List.mem_cons_self x xt)
      have ht : c ∉ xt := fun hm => h (List.mem_cons_of_mem _ hm)
      simp [splitFirst, hx, ih ht]

theorem repr_lt_two :
    ∀ m, m < 2 → ':' ∉ (toString m).data ∧ digitsVal (toString m).data = some m := by
  decide

set_option maxRecDepth 2000 in
theorem zfill2_repr :
    ∀ s, s < 60 → '.' ∉ (zfill 2 (toString s)).data ∧
      digitsVal (zfill 2 (toString s)).data = some s := by
  decide

set_option maxRecDepth 4000 in
theorem zfill3_repr :
    ∀ p, p < 1000 → digitsVal (zfill 3 (toString p)).data = some p ∧
      (zfill 3 (toString p)).data.length = 3 := by
  decide

theorem fmt_data (ms : Nat) : (fmt ms).data =
    (toString (ms / 60000)).data ++ ':' ::
      ((zfill 2 (toString (ms / 1000 % 60))).data ++ '.' ::
        (zfill 3 (toString (ms % 1000))).data) := by
  have h60 : ms / 1000 / 60 = ms / 60000 := by
    rw [Nat.div_div_eq_div_mul]
  have hc : (":" : String).data = [':'] := rfl
  have hd : ("." : String).data = ['.'] := rfl
  simp only [fmt, h60, String.data_append, hc, hd, List.append_assoc,
    List.singleton_append, List.cons_append, List.nil_append]

/-- Parsing inverts formatting: for any duration below two minutes the
`M:SS.mmm` rendering of `ms` milliseconds parses back to `ms * 1000`
microseconds. -/
theorem parseDuration_fmt (ms : Nat) (h : ms < 120000) :
    parseDuration (fmt ms) = some (ms * 1000) := by
  have hm : ms / 60000 < 2 := by omega
  have hs : ms / 1000 % 60 < 60 := Nat.mod_lt _ (by norm_num)
  have hp : ms % 1000 < 1000 := Nat.mod_lt _ (by norm_num)
  obtain ⟨hm1, hm2⟩ := repr_lt_two _ hm
  obtain ⟨hs1, hs2⟩ := zfill2_repr _ hs
  obtain ⟨hp1, hp2⟩ := zfill3_repr _ hp
  have h1 := splitFirst_append ':' (toString (ms / 60000)).data
    ((zfill 2 (toString (ms / 1000 % 60))).data ++ '.' ::
      (zfill 3 (toString (ms % 1000))).data) hm1
  have h2 := splitFirst_append '.' (zfill 2 (toString (ms / 1000 % 60))).data
    (zfill 3 (toString (ms % 1000))).data hs1
  simp only [parseDuration, fmt_data, h1, h2, hm2, hs2, hp1, hp2]
  norm_num
  omega

set_option maxRecDepth 2000 in
theorem deltaDigits_pattern :
    ∀ h, h < 160 → matchesDeltaPat ("-" ++ toString (h / 100) ++ "." ++
      zfill 2 (toString (h % 100)) ++ "s") = true := by
  decide

theorem roundHundredths_le (gm : Nat) (h : gm ≤ 1500) :
    roundHundredths gm ≤ 151 := by
  simp only [roundHundredths]
  split
  · omega
  · split
    · omega
    · split <;> omega

theorem deltaStr_pattern (gm : Nat) (h : gm ≤ 1500) :
    matchesDeltaPat (deltaStr gm) = true := by
  have hb : roundHundredths gm < 160 :=
    lt_of_le_of_lt (roundHundredths_le gm h) (by norm_num)
  simpa only [deltaStr] using deltaDigits_pattern _ hb

theorem isPrefixOf_append_self (l t : List Char) :
    l.isPrefixOf (l ++ t) = true := by
  induction l with
  | nil => simp [List.isPrefixOf]
  | cons c cs ih => simp [List.isPrefixOf, ih]

theorem containsSub_here (needle : String) (post : List Char) :
    containsSub needle (needle.data ++ post) = true := by
  match hn : needle.data ++ post with
  | [] =>
      have h1 : needle.data = [] := (List.append_eq_nil.mp hn).1
      simp [containsSub, h1]
  | c :: t =>
      simp only [containsSub]
      rw [← hn, isPrefixOf_append_self]
      simp

theorem containsSub_append (needle : String) (pre post : List Char) :
    containsSub needle (pre ++ (needle.data ++ post)) = true := by
  induction pre with
  | nil => simpa using containsSub_here needle post
  | cons c cs ih =>
      simp only [List.cons_append, containsSub, List.append_eq]
      rw [ih]
      simp

theorem strContains_of_parts (a needle b : String) :
    strContains (a ++ needle ++ b) needle = true := by
  unfold strContains
  have hdata : (a ++ needle ++ b).data = a.data ++ (needle.data ++ b.data) := by
    simp [String.data_append, List.append_assoc]
  rw [hdata]
  exact containsSub_append needle a.data b.data

theorem live_update_rows_eq (payload : LiveUpdateRequest) (g : Nat → Nat)
    (dateStr : String) :
    (live_update payload g dateStr).rows =
      mkRows (randint 4 18 (g (randint 1 3 (g 0) + 1))) g
        (randint 1 3 (g 0) + 2) 0 (sample events (randint 1 3 (g 0)) g 1)
        dateStr := rfl

theorem live_update_rows_length (payload : LiveUpdateRequest) (g : Nat → Nat)
    (dateStr : String) :
    (live_update payload g dateStr).rows.length = randint 1 3 (g 0) := by
  rw [live_update_rows_eq, mkRows_length]
  refine sample_length _ _ _ _ ?_
  have := randint_upper 1 3 (g 0) (by norm_num)
  simp only [events, List.length_cons, List.length_nil]
  omega

theorem stripNonEmpty_length (s : String) (h : pyStripEmpty s = false) :
    ¬ s.length < 1 := by
  intro hlt
  have h0 : s.length = s.data.length := rfl
  have hdata : s.data = [] := List.eq_nil_of_length_eq_zero (by omega)
  simp [pyStripEmpty, hdata] at h

/-- C1 counterexample: the request whose `sheet_tab` is the single space
" " has a non-empty tab name, yet the `src/backend/main.py` handler
rejects it with a 400 HTTPException instead of returning `ok = true`. -/
theorem C1_counterexample :
    reqSpace.sheet_tab ≠ "" ∧
    Backend.live_update reqSpace =
      .error 400 "Le nom d\x27onglet est requis" := by
  constructor
  · decide
  · decide

/-- C1 (amended): for every live-update request whose `sheet_tab` contains
a non-whitespace character, both POST /live-update handlers return a
response with `ok = true`, `updated_count` between 1 and 3, and
`updated_count` equal to the length of the returned `rows`; for
`src/main.py` the pydantic validation also passes. -/
theorem C1_theorem (payload : LiveUpdateRequest) (g : Nat → Nat)
    (dateStr : String) (h : pyStripEmpty payload.sheet_tab = false) :
    ((live_update payload g dateStr).ok = true ∧
      1 ≤ (live_update payload g dateStr).updated_count ∧
      (live_update payload g dateStr).updated_count ≤ 3 ∧
      (live_update payload g dateStr).updated_count =
        (live_update payload g dateStr).rows.length ∧
      live_update_validated payload g dateStr =
        .ok (live_update payload g dateStr)) ∧
    ∃ resp, Backend.live_update payload = .ok resp ∧ resp.ok = true ∧
      1 ≤ resp.updated_count ∧ resp.updated_count ≤ 3 ∧
      resp.updated_count = resp.rows.length := by
  constructor
  · refine ⟨rfl, ?_, ?_, rfl, ?_⟩
    · show 1 ≤ (live_update payload g dateStr).rows.length
      rw [live_update_rows_length]
      exact randint_lower 1 3 (g 0)
    · show (live_update payload g dateStr).rows.length ≤ 3
      rw [live_update_rows_length]
      exact randint_upper 1 3 (g 0) (by norm_num)
    · simp [live_update_validated, stripNonEmpty_length _ h]
  · have hb : Backend.live_update payload = .ok
        { ok := true
          , message := toString (min 3 (max 1 (payload.sheet_tab.length % 4))) ++
              " ligne(s) mise(s) à jour dans l\x27onglet \x27" ++
              payload.sheet_tab ++ "\x27."
          , updated_count :=
              (Backend.base_rows.take (min 3 (max 1 (payload.sheet_tab.length % 4)))).length
          , rows := Backend.base_rows.take (min 3 (max 1 (payload.sheet_tab.length % 4))) } := by
      simp [Backend.live_update, h]
    refine ⟨_, hb, rfl, ?_, ?_, rfl⟩
    · simp only [List.length_take, Backend.base_rows, List.length_cons,
        List.length_nil]
      omega
    · simp only [List.length_take, Backend.base_rows, List.length_cons,
        List.length_nil]
      omega

/-- C1 witness: the amended claim evaluated at the concrete request with
tab "Meet2024". -/
theorem C1_witness :
    ((live_update reqMeet gZero "2024-01-01").ok = true ∧
      1 ≤ (live_update reqMeet gZero "2024-01-01").updated_count ∧
      (live_update reqMeet gZero "2024-01-01").updated_count ≤ 3 ∧
      (live_update reqMeet gZero "2024-01-01").updated_count =
        (live_update reqMeet gZero "2024-01-01").rows.length ∧
      live_update_validated reqMeet gZero "2024-01-01" =
        .ok (live_update reqMeet gZero "2024-01-01")) ∧
    ∃ resp, Backend.live_update reqMeet = .ok resp ∧ resp.ok = true ∧
      1 ≤ resp.updated_count ∧ resp.updated_count ≤ 3 ∧
      resp.updated_count = resp.rows.length :=
  C1_theorem reqMeet gZero "2024-01-01" (by decide)

theorem backend_rows_subset (payload : LiveUpdateRequest)
    (resp : LiveUpdateResponse) (h : Backend.live_update payload = .ok resp) :
    ∀ r ∈ resp.rows, r ∈ Backend.base_rows := by
  cases hB : pyStripEmpty payload.sheet_tab with
  | true => simp [Backend.live_update, hB] at h
  | false =>
      simp only [Backend.live_update, hB, Bool.false_eq_true, if_false,
        HandlerResult.ok.injEq] at h
      intro r hr
      rw [← h] at hr
      exact List.take_subset _ _ hr

theorem base_rows_improve : ∀ r ∈ Backend.base_rows, timesImprove r = true := by
  decide

/-- C2: every row returned by either POST /live-update handler has an
`old_time`, both its `new_time` and `old_time` parse as `M:SS.fff`-style
durations, and the parsed `new_time` is strictly less than the parsed
`old_time`. -/
theorem C2_theorem (payload : LiveUpdateRequest) (g : Nat → Nat)
    (dateStr : String) (row : UpdatedRow) :
    (row ∈ (live_update payload g dateStr).rows → timesImprove row = true) ∧
    (∀ resp, Backend.live_update payload = .ok resp → row ∈ resp.rows →
      timesImprove row = true) := by
  constructor
  · intro hrow
    rw [live_update_rows_eq] at hrow
    obtain ⟨o, gn, h1, h2, h3, h4, h5, h6, h7, h8, h9⟩ :=
      mkRows_mem _ _ _ _ _ _ _ hrow
    simp only [timesImprove, h5, h6]
    rw [parseDuration_fmt (o - gn) (by omega), parseDuration_fmt o (by omega)]
    simp only [decide_eq_true_eq]
    have hlt : o - gn < o := Nat.sub_lt (by omega) (by omega)
    omega
  · intro resp hresp hrow
    exact base_rows_improve row (backend_rows_subset payload resp hresp row hrow)

/-- C2 witness: the first generated row of the randomized handler under
the all-zero draw stream, and (via the backend clause) the first fixed row
of the deterministic handler. -/
theorem C2_witness :
    timesImprove
      { row_number := 4, event := "50m Freestyle", date := "2024-01-01",
        old_time := some "0:30.000", new_time := "0:29.800",
        delta := some "-0.20s" } = true :=
  (C2_theorem reqMeet gZero "2024-01-01" _).1 (by decide)

/-- C3 counterexample: the non-empty, whitespace-only tab " " passes the
`min_length=1` validation of `src/main.py` and the handler returns a
successful response with one row — it is not rejected. -/
theorem C3_counterexample :
    pyStripEmpty reqSpace.sheet_tab = true ∧
    live_update_validated reqSpace gZero "2024-01-01" =
      .ok (live_update reqSpace gZero "2024-01-01") ∧
    (live_update reqSpace gZero "2024-01-01").rows.length = 1 := by
  refine ⟨by decide, by decide, ?_⟩
  rw [live_update_rows_length]
  decide

/-- C3 (amended): a live-update request with an empty `sheet_tab` is
rejected with a client error and no rows by both modules (422 from the
pydantic validation of `src/main.py`, 400 from the handler of
`src/backend/main.py`); a whitespace-only tab is rejected (400) by
`src/backend/main.py` only, while `src/main.py` accepts any tab of length
at least one. -/
theorem C3_theorem (payload : LiveUpdateRequest) (g : Nat → Nat)
    (dateStr : String) :
    (payload.sheet_tab = "" →
      live_update_validated payload g dateStr =
        .error 422 "String should have at least 1 character" ∧
      Backend.live_update payload =
        .error 400 "Le nom d\x27onglet est requis") ∧
    (pyStripEmpty payload.sheet_tab = true →
      Backend.live_update payload =
        .error 400 "Le nom d\x27onglet est requis") ∧
    (payload.sheet_tab ≠ "" →
      live_update_validated payload g dateStr =
        .ok (live_update payload g dateStr)) := by
  refine ⟨?_, ?_, ?_⟩
  · intro h
    have hws : pyStripEmpty payload.sheet_tab = true := by
      rw [h]; decide
    constructor
    · simp [live_update_validated, h]
    · simp [Backend.live_update, hws]
  · intro h
    simp [Backend.live_update, h]
  · intro hne
    have hlen : ¬ payload.sheet_tab.length < 1 := by
      intro hlt
      have h0 : payload.sheet_tab.length = payload.sheet_tab.data.length := rfl
      have hdata : payload.sheet_tab.data = [] :=
        List.eq_nil_of_length_eq_zero (by omega)
      exact hne (String.ext (by rw [hdata]))
    simp [live_update_validated, hlen]

/-- C3 witness: the amended claim evaluated at the request with the empty
tab name. -/
theorem C3_witness :
    live_update_validated reqEmpty gZero "2024-01-01" =
      .error 422 "String should have at least 1 character" ∧
    Backend.live_update reqEmpty =
      .error 400 "Le nom d\x27onglet est requis" :=
  (C3_theorem reqEmpty gZero "2024-01-01").1 rfl

theorem backend_resp_eq (payload : LiveUpdateRequest)
    (resp : LiveUpdateResponse) (h : Backend.live_update payload = .ok resp) :
    resp =
      { ok := true
        , message := toString (min 3 (max 1 (payload.sheet_tab.length % 4))) ++
            " ligne(s) mise(s) à jour dans l\x27onglet \x27" ++
            payload.sheet_tab ++ "\x27."
        , updated_count :=
            (Backend.base_rows.take
              (min 3 (max 1 (payload.sheet_tab.length % 4)))).length
        , rows := Backend.base_rows.take
            (min 3 (max 1 (payload.sheet_tab.length % 4))) } := by
  cases hB : pyStripEmpty payload.sheet_tab with
  | true => simp [Backend.live_update, hB] at h
  | false =>
      simp only [Backend.live_update, hB, Bool.false_eq_true, if_false,
        HandlerResult.ok.injEq] at h
      exact h.symm

/-- C4 counterexample: with the tab "ab" the `src/backend/main.py` handler
returns a row whose event "100m Butterfly" is not in the fixed 5-event
catalog of `src/main.py`. -/
theorem C4_counterexample :
    "100m Butterfly" ∈ eventsOf (Backend.live_update reqAb) ∧
    "100m Butterfly" ∉ events := by
  constructor
  · decide
  · decide

/-- C4 (amended): within any single POST /live-update response the event
names of the returned rows are pairwise distinct; the randomized handler
of `src/main.py` draws them from the fixed 5-event catalog, while the
deterministic handler of `src/backend/main.py` draws them from the events
of its own fixed 3-row list (which includes "100m Butterfly", an event
outside the 5-event catalog). -/
theorem C4_theorem (payload : LiveUpdateRequest) (g : Nat → Nat)
    (dateStr : String) :
    (((live_update payload g dateStr).rows.map (fun r => r.event)).Nodup ∧
      ∀ e ∈ (live_update payload g dateStr).rows.map (fun r => r.event),
        e ∈ events) ∧
    ∀ resp, Backend.live_update payload = .ok resp →
      ((resp.rows.map (fun r => r.event)).Nodup ∧
        ∀ e ∈ resp.rows.map (fun r => r.event),
          e ∈ Backend.base_rows.map (fun r => r.event)) := by
  have hmap : (live_update payload g dateStr).rows.map (fun r => r.event) =
      sample events (randint 1 3 (g 0)) g 1 := by
    rw [live_update_rows_eq]
    exact mkRows_map_event _ _ _ _ _ _
  refine ⟨⟨?_, ?_⟩, ?_⟩
  · rw [hmap]
    exact sample_nodup _ _ _ _ (by decide)
  · intro e he
    rw [hmap] at he
    exact sample_subset _ _ _ _ e he
  · intro resp hresp
    have ht : resp.rows = Backend.base_rows.take
        (min 3 (max 1 (payload.sheet_tab.length % 4))) := by
      rw [backend_resp_eq payload resp hresp]
    constructor
    · rw [ht]
      exact List.Nodup.sublist ((List.take_sublist _ _).map _) (by decide)
    · intro e he
      rw [ht] at he
      obtain ⟨r, hr, rfl⟩ := List.mem_map.mp he
      exact List.mem_map_of_mem _ (List.take_subset _ _ hr)

/-- C4 witness: distinctness and catalog membership evaluated at the
request with tab "Meet2024" under the all-zero draw stream. -/
theorem C4_witness :
    ((live_update reqMeet gZero "2024-01-01").rows.map
      (fun r => r.event)).Nodup ∧
    "50m Freestyle" ∈ events :=
  ⟨(C4_theorem reqMeet gZero "2024-01-01").1.1,
    (C4_theorem reqMeet gZero "2024-01-01").1.2 "50m Freestyle" (by decide)⟩

theorem base_rows_delta_shape :
    ∀ r ∈ Backend.base_rows, ∃ d, r.delta = some d ∧
      matchesDeltaPatNoUnit d = true := by
  decide

/-- C5 counterexample: the end-to-end scenario request (tab "Meet2024")
sent to the `src/backend/main.py` handler yields a first row whose delta
"-0.19" does not match the pattern `-\d+\.\d{2}s` (no trailing "s"). -/
theorem C5_counterexample :
    firstDelta (Backend.live_update reqMeet) = some "-0.19" ∧
    matchesDeltaPat "-0.19" = false := by
  constructor
  · decide
  · decide

/-- C5 (amended): for any request with valid URLs and a `sheet_tab` with
non-whitespace content, every row of the `src/main.py` response carries a
delta matching `-\d+\.\d{2}s`, every row of the `src/backend/main.py`
response carries a delta matching `-\d+\.\d{2}` (without the trailing
"s"), and both response messages contain the tab name. -/
theorem C5_theorem (payload : LiveUpdateRequest) (g : Nat → Nat)
    (dateStr : String) (h : pyStripEmpty payload.sheet_tab = false) :
    (∀ row ∈ (live_update payload g dateStr).rows,
      ∃ d, row.delta = some d ∧ matchesDeltaPat d = true) ∧
    strContains (live_update payload g dateStr).message payload.sheet_tab
      = true ∧
    ∀ resp, Backend.live_update payload = .ok resp →
      ((∀ row ∈ resp.rows,
          ∃ d, row.delta = some d ∧ matchesDeltaPatNoUnit d = true) ∧
        strContains resp.message payload.sheet_tab = true) := by
  refine ⟨?_, ?_, ?_⟩
  · intro row hrow
    rw [live_update_rows_eq] at hrow
    obtain ⟨o, gn, h1, h2, h3, h4, h5, h6, h7, h8, h9⟩ :=
      mkRows_mem _ _ _ _ _ _ _ hrow
    exact ⟨deltaStr gn, h7, deltaStr_pattern gn h4⟩
  · exact strContains_of_parts
      (toString ((live_update payload g dateStr).rows.length) ++
        " ligne(s) mises à jour dans \x27")
      payload.sheet_tab "\x27."
  · intro resp hresp
    constructor
    · intro row hrow
      exact base_rows_delta_shape row
        (backend_rows_subset payload resp hresp row hrow)
    · have hm : resp.message =
          (toString (min 3 (max 1 (payload.sheet_tab.length % 4))) ++
            " ligne(s) mise(s) à jour dans l\x27onglet \x27") ++
          payload.sheet_tab ++ "\x27." := by
        rw [backend_resp_eq payload resp hresp]
      rw [hm]
      exact strContains_of_parts _ _ _

/-- C5 witness: the message-containment clause evaluated at the scenario
request with tab "Meet2024". -/
theorem C5_witness :
    strContains (live_update reqMeet gZero "2024-01-01").message
      reqMeet.sheet_tab = true :=
  (C5_theorem reqMeet gZero "2024-01-01" (by decide)).2.1

/-- C6: whatever the store state and whichever insert call raises, the
try/except of `src/main.py` lines 101-126 swallows the failure and the
handler returns exactly the response built before persistence was
attempted. -/
theorem C6_theorem (payload : LiveUpdateRequest) (g : Nat → Nat)
    (dateStr : String) (db : Option DBState) (fails : Nat → Bool) :
    (live_update_persisted payload g dateStr db fails).1 =
      live_update payload g dateStr := by
  cases db <;> rfl

/-- C7: with no configured store, GET /runs answers `ok = false` with an
empty list (and, being a total function, cannot raise). -/
theorem C7_theorem (limit : Nat) (fetchErr : Option String) :
    list_runs none limit fetchErr =
      { ok := false, message := some "Database not configured", runs := [] } :=
  rfl

/-- C8: with a configured store, GET /runs/{run_id}/rows for a `run_id`
that matches no stored Result document returns `ok = true` with an empty
rows list, not an error. -/
theorem C8_theorem (coll : List StoredResult) (rid : String)
    (h : ∀ r ∈ coll, r.run_id ≠ rid) :
    get_run_rows (some coll) rid none =
      { ok := true, message := none, rows := [] } := by
  have hf : coll.filter (fun r => r.run_id = rid) = [] := by
    rw [List.filter_eq_nil_iff]
    intro a ha
    simp [h a ha]
  simp [get_run_rows, hf]

/-- C8 witness: a one-document store queried with a different run id. -/
theorem C8_witness :
    get_run_rows (some [sResult1]) "xyz" none =
      { ok := true, message := none, rows := [] } :=
  C8_theorem [sResult1] "xyz" (by decide)

/-- C9: with a configured store and a successful fetch, GET /runs returns
exactly the fetched run documents (as a permutation), pairwise sorted by
creation timestamp descending with missing timestamps as the earliest
value, and each returned document is the identifier-rewritten form of a
fetched one (`_id` becomes the string `id`). -/
theorem C9_theorem (coll : List StoredRun) (limit : Nat) :
    (list_runs (some coll) limit none).ok = true ∧
    (list_runs (some coll) limit none).runs.Perm
      ((coll.take limit).map rewriteId) ∧
    (list_runs (some coll) limit none).runs.Pairwise
      (fun a b => outKey b ≤ outKey a) ∧
    ∀ r ∈ (list_runs (some coll) limit none).runs,
      ∃ d ∈ coll.take limit, r = rewriteId d ∧ r.id = d.oid.map toString := by
  have hre : (list_runs (some coll) limit none).runs =
      ((coll.take limit).mergeSort
        (fun a b => runSortKey b ≤ runSortKey a)).map rewriteId := rfl
  have hperm : (list_runs (some coll) limit none).runs.Perm
      ((coll.take limit).map rewriteId) := by
    rw [hre]
    exact (List.mergeSort_perm _ _).map _
  have hsorted := @List.sorted_mergeSort StoredRun
    (fun a b => decide (runSortKey b ≤ runSortKey a))
    (fun a b c hab hbc => by
      simp only [decide_eq_true_eq] at hab hbc ⊢
      omega)
    (fun a b => by
      simp only [Bool.or_eq_true, decide_eq_true_eq]
      omega)
    (coll.take limit)
  refine ⟨rfl, hperm, ?_, ?_⟩
  · rw [hre]
    refine List.Pairwise.map rewriteId ?_ hsorted
    intro a b hab
    simpa only [decide_eq_true_eq] using hab
  · intro r hr
    have := hperm.mem_iff.mp hr
    obtain ⟨d, hd, rfl⟩ := List.mem_map.mp this
    exact ⟨d, hd, rfl, rfl⟩

/-- C9 witness: a two-document store (one document without a timestamp,
one with timestamp 5) and limit 10. -/
theorem C9_witness :
    (list_runs (some [sRunNoTs, sRunTs5]) 10 none).ok = true ∧
    (list_runs (some [sRunNoTs, sRunTs5]) 10 none).runs.Perm
      (([sRunNoTs, sRunTs5].take 10).map rewriteId) :=
  ⟨(C9_theorem [sRunNoTs, sRunTs5] 10).1,
    (C9_theorem [sRunNoTs, sRunTs5] 10).2.1⟩

/-- C10 counterexample: the payload whose tab is three spaces is rejected
with a 400 HTTPException by the `src/backend/main.py` handler, so no
response with `min(3, max(1, len(sheet_tab) % 4)) = 3` rows exists for
it. -/
theorem C10_counterexample :
    Backend.live_update reqSpace3 =
      .error 400 "Le nom d\x27onglet est requis" ∧
    min 3 (max 1 (reqSpace3.sheet_tab.length % 4)) = 3 := by
  constructor
  · decide
  · decide

/-- C10 (amended): the `src/backend/main.py` POST /live-update handler is
deterministic — equal payloads give identical outcomes — and for every
payload whose `sheet_tab` has non-whitespace content it returns a
response whose row count is `min(3, max(1, len(sheet_tab) % 4))` and
whose rows are a prefix of the fixed 3-row list. -/
theorem C10_theorem (payload : LiveUpdateRequest)
    (h : pyStripEmpty payload.sheet_tab = false) :
    (∀ p2 : LiveUpdateRequest, p2 = payload →
      Backend.live_update p2 = Backend.live_update payload) ∧
    ∃ resp, Backend.live_update payload = .ok resp ∧
      resp.rows.length = min 3 (max 1 (payload.sheet_tab.length % 4)) ∧
      resp.rows = Backend.base_rows.take
        (min 3 (max 1 (payload.sheet_tab.length % 4))) ∧
      ∃ t, resp.rows ++ t = Backend.base_rows := by
  constructor
  · intro p2 h2
    rw [h2]
  · have hb : Backend.live_update payload = .ok
        { ok := true
          , message := toString (min 3 (max 1 (payload.sheet_tab.length % 4))) ++
              " ligne(s) mise(s) à jour dans l\x27onglet \x27" ++
              payload.sheet_tab ++ "\x27."
          , updated_count :=
              (Backend.base_rows.take
                (min 3 (max 1 (payload.sheet_tab.length % 4)))).length
          , rows := Backend.base_rows.take
              (min 3 (max 1 (payload.sheet_tab.length % 4))) } := by
      simp [Backend.live_update, h]
    refine ⟨_, hb, ?_, rfl, ?_⟩
    · simp only [List.length_take, Backend.base_rows, List.length_cons,
        List.length_nil]
      omega
    · exact ⟨Backend.base_rows.drop (min 3 (max 1 (payload.sheet_tab.length % 4))),
        List.take_append_drop _ _⟩

/-- C10 witness: the deterministic handler evaluated at the scenario
request with tab "Meet2024". -/
theorem C10_witness :
    ∃ resp, Backend.live_update reqMeet = .ok resp ∧
      resp.rows.length = min 3 (max 1 (reqMeet.sheet_tab.length % 4)) ∧
      resp.rows = Backend.base_rows.take
        (min 3 (max 1 (reqMeet.sheet_tab.length % 4))) ∧
      ∃ t, resp.rows ++ t = Backend.base_rows :=
  (C10_theorem reqMeet (by decide)).2
